import Mathlib

/-!
Shallow embedding of the Breakout game in `src/main.py` (pyxel_attack).

Numbers: Python ints/floats are modelled as rationals (`ℚ`); all arithmetic
in the source is exact on the values that occur (small integers and the
paddle-bounce division by 30), so `ℚ` is a faithful carrier.

The pyxel screen is 600 × 400 (`pyxel.init(600, 400)`), so `pyxel.width = 600`
and `pyxel.height = 400`.

Entities carry only their mutable fields; fixed attributes (paddle width 60,
height 10, speed 8; ball radius 4, bounding box 8 × 8; block width 50,
height 20; dead zone `(0, 395, 600, 5)`) are inlined as constants exactly as
they are in the source constructors.
-/

/-- A rectangle as used by `Collision.check_aabb_collision`:
top-left `(x, y)` plus `(width, height)`. -/
structure Rect where
  x : ℚ
  y : ℚ
  width : ℚ
  height : ℚ
deriving DecidableEq

/-- `Collision.check_aabb_collision` (src/main.py lines 22-29): the four
strict-inequality AABB overlap test. -/
def check_aabb_collision (a b : Rect) : Bool :=
  decide (a.x < b.x + b.width) &&
  decide (a.x + a.width > b.x) &&
  decide (a.y < b.y + b.height) &&
  decide (a.y + a.height > b.y)

/-- Mutable state of `Ball` (src/main.py lines 91-99): position `(x, y)` and
velocity `(dx, dy)`. Radius is fixed at 4, so `width = height = 8`. -/
structure Ball where
  x : ℚ
  y : ℚ
  dx : ℚ
  dy : ℚ
deriving DecidableEq

/-- Mutable state of `Paddle` (src/main.py lines 69-75): position.
Width 60, height 10, speed 8 are fixed. -/
structure Paddle where
  x : ℚ
  y : ℚ
deriving DecidableEq

/-- Mutable state of `Block` (src/main.py lines 119-126): position and the
`active` flag. Width 50, height 20 are the defaults used by `create_blocks`. -/
structure Block where
  x : ℚ
  y : ℚ
  active : Bool
deriving DecidableEq

/-- The ball's bounding box as read by the collision mixin
(`self.x, self.y, self.width = 8, self.height = 8`). -/
def ballRect (b : Ball) : Rect := ⟨b.x, b.y, 8, 8⟩

/-- The paddle's bounding box (width 60, height 10). -/
def paddleRect (p : Paddle) : Rect := ⟨p.x, p.y, 60, 10⟩

/-- A block's bounding box (width 50, height 20). -/
def blockRect (b : Block) : Rect := ⟨b.x, b.y, 50, 20⟩

/-- `DeadZone` (src/main.py lines 137-142): `(0, pyxel.height - 5)` with
`width = pyxel.width`, `height = 5`, i.e. the strip `(0, 395, 600, 5)`.
It never moves. -/
def deadZoneRect : Rect := ⟨0, 400 - 5, 600, 5⟩

/-- Per-tick key state consumed by the game: `keyA`/`keyD` are
`pyxel.btn(KEY_A)`/`pyxel.btn(KEY_D)` and `keyR` is `pyxel.btnp(KEY_R)`. -/
structure Keys where
  keyA : Bool
  keyD : Bool
  keyR : Bool
deriving DecidableEq

/-- `Input.direction` (src/main.py lines 55-62): A (left) has priority over
D (right); neither gives 0. -/
def Keys.direction (i : Keys) : ℚ :=
  if i.keyA then -1 else if i.keyD then 1 else 0

/-- `Paddle.update` (src/main.py lines 77-81): move by `direction * speed`
(speed 8), then clamp with `max(0, min(x, pyxel.width - width))`
= `max 0 (min x (600 - 60))`. -/
def Paddle.update (p : Paddle) (dir : ℚ) : Paddle :=
  { p with x := max 0 (min (p.x + dir * 8) (600 - 60)) }

/-- `Ball.update` (src/main.py lines 101-109): advance by the velocity, then
negate `dx` if `x < radius or x > pyxel.width - radius` (radius 4), and
negate `dy` if `y < radius`. The bottom edge is not checked. -/
def Ball.update (b : Ball) : Ball :=
  let x := b.x + b.dx
  let y := b.y + b.dy
  let dx := if x < 4 ∨ x > 600 - 4 then -b.dx else b.dx
  let dy := if y < 4 then -b.dy else b.dy
  { x := x, y := y, dx := dx, dy := dy }

/-- The whole mutable game state.

`logicCount` is the number of `GameLogic` instances that have been
constructed so far and are registered as listeners.  In the source, each
restart executes `self.logic = GameLogic(ball, paddle, blocks, score,
dead_zone)`, whose constructor calls `ball.listen` / `dead_zone.listen`
again without removing the previous logic's callbacks; all logics share the
very same ball/paddle/blocks/score objects, so after `k - 1` restarts the
ball's callback list holds `k` copies of
`(on_paddle_collision, on_block_collision)` and the dead zone's holds `k`
copies of `on_dead_zone_collision`.  Only the newest logic's `game_over`
flag is ever read by `BreakOut.update`; `gameOver` below is that flag. -/
structure GameState where
  ball : Ball
  paddle : Paddle
  blocks : List Block
  score : ℕ
  gameOver : Bool
  logicCount : ℕ
deriving DecidableEq

/-- Tag identifying a member of `BreakOut.collisions`
(`[paddle, ball, dead_zone, *blocks]`; `Score` is not a `Collision`).
The callbacks only inspect the partner's runtime type (`isinstance`) and,
for blocks, its `active` flag, so a tag (with the block's list index)
captures exactly what a callback can see of its partner. -/
inductive Partner where
  | paddle : Partner
  | ball : Partner
  | deadZone : Partner
  | block : ℕ → Partner
deriving DecidableEq

/-- The bounding box an element of `BreakOut.collisions` currently exposes. -/
def partnerRect (s : GameState) : Partner → Rect
  | .paddle => paddleRect s.paddle
  | .ball => ballRect s.ball
  | .deadZone => deadZoneRect
  | .block i =>
    match s.blocks[i]? with
    | some b => blockRect b
    | none => ⟨0, 0, 0, 0⟩

/-- `BreakOut.collisions` in iteration order: `game_objects` is
`[paddle, ball, score, dead_zone, *blocks]` filtered to `Collision`
instances, and `Score` is not one. -/
def partnerList (s : GameState) : List Partner :=
  .paddle :: .ball :: .deadZone :: (List.range s.blocks.length).map .block

/-- The paddle-bounce horizontal velocity (src/main.py lines 198-199):
`offset = (ball.x - (paddle.x + paddle.width / 2)) / (paddle.width / 2)`,
`dx = offset * 5`, with `paddle.width = 60`. -/
def on_paddle_dx (ballX paddleX : ℚ) : ℚ :=
  ((ballX - (paddleX + 60 / 2)) / (60 / 2)) * 5

/-- `GameLogic.on_paddle_collision` (src/main.py lines 195-199): only reacts
when the partner `isinstance(other, Paddle)`; negates `dy` and recomputes
`dx` from the impact offset. -/
def on_paddle_collision (s : GameState) (other : Partner) : GameState :=
  match other with
  | .paddle =>
    { s with ball :=
        { s.ball with dy := -s.ball.dy, dx := on_paddle_dx s.ball.x s.paddle.x } }
  | _ => s

/-- `GameLogic.on_block_collision` (src/main.py lines 201-208): only reacts
when `isinstance(other, Block) and other.active`; deactivates that block,
negates `dy`, adds 100 to the score, and if every block is now inactive
calls `on_game_over`.  `isCurrent` records whether this logic instance is
the one whose `game_over` flag `BreakOut.update` reads (older, leaked
logics still mutate the shared entities, but their flag is never read). -/
def on_block_collision (isCurrent : Bool) (s : GameState) (other : Partner) : GameState :=
  match other with
  | .block i =>
    match s.blocks[i]? with
    | some bl =>
      if bl.active then
        let blocks := s.blocks.set i { bl with active := false }
        { s with blocks := blocks,
                 ball := { s.ball with dy := -s.ball.dy },
                 score := s.score + 100,
                 gameOver :=
                   if isCurrent && blocks.all (fun b => !b.active) then true
                   else s.gameOver }
      else s
    | none => s
  | _ => s

/-- `GameLogic.on_dead_zone_collision` (src/main.py lines 210-212): only
reacts when `isinstance(other, Ball)`; sets `game_over`. -/
def on_dead_zone_collision (s : GameState) (other : Partner) : GameState :=
  match other with
  | .ball => { s with gameOver := true }
  | _ => s

/-- Running the ball's full callback list on one partner: with `k` stacked
`GameLogic` instances the list is `k` copies of
`[on_paddle_collision, on_block_collision]` in registration order; only
the last (newest) logic's `game_over` flag is the one the driver reads. -/
def ballCallbacksFor (k : ℕ) (s : GameState) (other : Partner) : GameState :=
  (List.range k).foldl
    (fun t i => on_block_collision (i + 1 == k) (on_paddle_collision t other) other) s

/-- Running the dead zone's full callback list (`k` copies of
`on_dead_zone_collision`) on one partner. -/
def deadZoneCallbacksFor (k : ℕ) (s : GameState) (other : Partner) : GameState :=
  (List.range k).foldl (fun t _ => on_dead_zone_collision t other) s

/-- One iteration of the loop body of `Collision.check` for the ball:
`if self.check_aabb_collision(other): for callback in self.callbacks:
callback(other)`.  Callbacks never change any position, so testing the
overlap against the current accumulated state is the same as against the
state at the start of the pass. -/
def ballStep (k : ℕ) (t : GameState) (p : Partner) : GameState :=
  if check_aabb_collision (ballRect t.ball) (partnerRect t p) then
    ballCallbacksFor k t p
  else t

/-- `ball.check(self.collisions)`: fold the loop body over the whole
candidate list, the ball itself included (the source does not skip it). -/
def ballCheck (k : ℕ) (s : GameState) : GameState :=
  (partnerList s).foldl (ballStep k) s

/-- One iteration of the loop body of `Collision.check` for the dead zone. -/
def deadZoneStep (k : ℕ) (t : GameState) (p : Partner) : GameState :=
  if check_aabb_collision deadZoneRect (partnerRect t p) then
    deadZoneCallbacksFor k t p
  else t

/-- `dead_zone.check(self.collisions)`. -/
def deadZoneCheck (k : ℕ) (s : GameState) : GameState :=
  (partnerList s).foldl (deadZoneStep k) s

/-- The collision pass `for col in self.collisions: col.check(self.collisions)`
(src/main.py lines 261-262).  The paddle and the blocks have empty callback
lists, so their `check` calls are state-identities; the ball's runs first,
then the dead zone's. -/
def collisionPhase (k : ℕ) (s : GameState) : GameState :=
  deadZoneCheck k (ballCheck k s)

/-- The motion pass `for obj in self.game_objects: obj.update()`
(src/main.py lines 264-265): paddle first, then ball; `Score`, `DeadZone`
and `Block` inherit the no-op `Updatable.update`. -/
def motionPhase (s : GameState) (i : Keys) : GameState :=
  let s1 := { s with paddle := s.paddle.update i.direction }
  { s1 with ball := s1.ball.update }

/-- `GameLogic.reset` (src/main.py lines 182-190): zero the score, put the
ball back at `(300, 300)` with velocity `(4, -4)`, set `paddle.y = 350`
(`paddle.x` is untouched), reactivate every block, clear `game_over`. -/
def GameLogic.reset (s : GameState) : GameState :=
  { s with score := 0,
           ball := { x := 300, y := 300, dx := 4, dy := -4 },
           paddle := { s.paddle with y := 350 },
           blocks := s.blocks.map (fun b => { b with active := true }),
           gameOver := false }

/-- `BreakOut.update` (src/main.py lines 254-265), one tick: while
`game_over`, only the restart key is polled (`R` constructs a fresh
`GameLogic`, which runs `reset` and registers one more copy of every
listener); otherwise the collision pass runs first and the motion pass
second, exactly as in the source. -/
def BreakOut.update (s : GameState) (i : Keys) : GameState :=
  if s.gameOver then
    if i.keyR then
      { GameLogic.reset s with logicCount := s.logicCount + 1 }
    else s
  else
    motionPhase (collisionPhase s.logicCount s) i

/-- `create_blocks` (src/main.py lines 219-227): 5 rows × 10 columns,
`x = col * 55 + 25`, `y = row * 25 + 50`, all active. -/
def create_blocks : List Block :=
  (List.range 5).flatMap (fun row =>
    (List.range 10).map (fun col =>
      { x := (col : ℚ) * 55 + 25, y := (row : ℚ) * 25 + 50, active := true }))

/-- The state right after `BreakOut.__init__`: paddle `(270, 350)`, ball
`(300, 300)` velocity `(4, -4)`, the 50-block grid, score 0, one
`GameLogic` instance. -/
def initialState : GameState :=
  { ball := { x := 300, y := 300, dx := 4, dy := -4 },
    paddle := { x := 270, y := 350 },
    blocks := create_blocks,
    score := 0,
    gameOver := false,
    logicCount := 1 }

/-- Run the game from the initial state under a list of per-tick key
states. -/
def runGame (inputs : List Keys) : GameState :=
  inputs.foldl BreakOut.update initialState

/-- Whether block `i` would be destroyed by the ball's pass over a state:
it exists, is active, and its box overlaps the ball's box. -/
def blockHit (s : GameState) (i : ℕ) : Bool :=
  match s.blocks[i]? with
  | some bl => bl.active && check_aabb_collision (ballRect s.ball) (blockRect bl)
  | none => false

/-- Number of active blocks overlapping the ball in a state. -/
def hitCount (s : GameState) : ℕ :=
  (List.range s.blocks.length).countP (fun j => blockHit s j)

/-- The partners for which `Collision.check`, run for a body with bounding
box `selfRect` against the candidate list, invokes the registered
callbacks: exactly those whose box passes `check_aabb_collision`. -/
def firedPartners (s : GameState) (selfRect : Rect) : List Partner :=
  (partnerList s).filter (fun p => check_aabb_collision selfRect (partnerRect s p))

/-- A tick with no key pressed. -/
def noKeys : Keys := ⟨false, false, false⟩

/-- A tick with only the restart key pressed. -/
def restartKey : Keys := ⟨false, false, true⟩

/-- A Playing state whose ball (at `(73, 60)`) overlaps the first two blocks
of the top row (`(25, 50)` and `(80, 50)`) simultaneously.  The state is
otherwise the initial one. -/
def ballOnTwoBlocks : GameState := { initialState with ball := ⟨73, 60, 4, -4⟩ }

/-- A Playing state one restart deep (`logicCount = 2`, so the ball's
callback list holds two copies of each reaction) whose ball overlaps the
paddle. -/
def restartedPaddleHit : GameState :=
  { initialState with ball := ⟨300, 344, 4, 4⟩, logicCount := 2 }

/-- A Playing state whose ball, at `(300, 340)` moving down with `dy = 4`,
does not yet overlap the paddle but would after advancing one step. -/
def ballAbovePaddle : GameState := { initialState with ball := ⟨300, 340, 0, 4⟩ }

/-- The per-tick composition the claim describes: advance paddle and ball
positions first, then run the collision-resolution pass (which also
evaluates the end conditions). -/
def specOrderTick (s : GameState) (i : Keys) : GameState :=
  collisionPhase s.logicCount (motionPhase s i)

/-- A Playing state whose ball overlaps the paddle's left corner: the ball's
box `[263, 271) × [345, 353)` meets the paddle's `[270, 330) × [350, 360)`,
while the ball's x sits 37 units left of the paddle's centre 300. -/
def ballOnPaddleCorner : GameState := { initialState with ball := ⟨263, 345, 4, 4⟩ }

/-- A Playing state with the paddle parked at the left wall and the ball at
`(2, 345)` overlapping it: the paddle bounce and the left-wall bounce fire
in the same tick. -/
def ballAtLeftEdgeOnPaddle : GameState :=
  { initialState with ball := ⟨2, 345, 4, 4⟩, paddle := ⟨0, 350⟩ }

/-- The effect of `on_block_collision` (for the sole logic instance of a
fresh session) on a state whose block `i` is hit: deactivate block `i`,
negate `dy`, add 100, and set `game_over` if no active block remains. -/
def destroyAt (t : GameState) (i : ℕ) : GameState :=
  match t.blocks[i]? with
  | some bl =>
    let blocks := t.blocks.set i { bl with active := false }
    { t with blocks := blocks,
             ball := { t.ball with dy := -t.ball.dy },
             score := t.score + 100,
             gameOver := if blocks.all (fun b => !b.active) then true else t.gameOver }
  | none => t

/-! ## Helper lemmas -/

/-- A fold preserves any property preserved by each step. -/
theorem foldl_pres {α β : Type _} (P : α → Prop) (f : α → β → α)
    (h : ∀ a b, P a → P (f a b)) : ∀ (l : List β) (a : α), P a → P (l.foldl f a) := by
  intro l
  induction l with
  | nil => exact fun a ha => ha
  | cons x xs ih => exact fun a ha => ih _ (h a x ha)

/-- `on_paddle_collision` only touches the ball's velocity. -/
theorem on_paddle_collision_frame (s : GameState) (p : Partner) :
    (on_paddle_collision s p).paddle = s.paddle ∧
    (on_paddle_collision s p).blocks = s.blocks ∧
    (on_paddle_collision s p).score = s.score ∧
    (on_paddle_collision s p).gameOver = s.gameOver ∧
    (on_paddle_collision s p).logicCount = s.logicCount ∧
    (on_paddle_collision s p).ball.x = s.ball.x ∧
    (on_paddle_collision s p).ball.y = s.ball.y := by
  cases p <;> simp [on_paddle_collision]

/-- `on_block_collision` only touches `blocks` (keeping their number and
positions), the ball's `dy`, the score and the `game_over` flag. -/
theorem on_block_collision_frame (c : Bool) (s : GameState) (p : Partner) :
    (on_block_collision c s p).paddle = s.paddle ∧
    (on_block_collision c s p).logicCount = s.logicCount ∧
    (on_block_collision c s p).ball.x = s.ball.x ∧
    (on_block_collision c s p).ball.y = s.ball.y ∧
    (on_block_collision c s p).ball.dx = s.ball.dx ∧
    (on_block_collision c s p).blocks.length = s.blocks.length := by
  cases p with
  | block i =>
    rcases hbl : s.blocks[i]? with _ | bl
    · simp [on_block_collision, hbl]
    · by_cases hact : bl.active <;> simp [on_block_collision, hbl, hact]
  | paddle => simp [on_block_collision]
  | ball => simp [on_block_collision]
  | deadZone => simp [on_block_collision]

/-- `on_dead_zone_collision` only touches the `game_over` flag. -/
theorem on_dead_zone_collision_frame (s : GameState) (p : Partner) :
    (on_dead_zone_collision s p).ball = s.ball ∧
    (on_dead_zone_collision s p).paddle = s.paddle ∧
    (on_dead_zone_collision s p).blocks = s.blocks ∧
    (on_dead_zone_collision s p).score = s.score ∧
    (on_dead_zone_collision s p).logicCount = s.logicCount := by
  cases p <;> simp [on_dead_zone_collision]

/-- The ball's callback stack never moves any body: paddle, ball position,
block count and `logicCount` are untouched. -/
theorem ballCallbacksFor_frame (k : ℕ) (s : GameState) (p : Partner) :
    (ballCallbacksFor k s p).paddle = s.paddle ∧
    (ballCallbacksFor k s p).ball.x = s.ball.x ∧
    (ballCallbacksFor k s p).ball.y = s.ball.y ∧
    (ballCallbacksFor k s p).blocks.length = s.blocks.length ∧
    (ballCallbacksFor k s p).logicCount = s.logicCount := by
  unfold ballCallbacksFor
  refine foldl_pres
    (fun t => t.paddle = s.paddle ∧ t.ball.x = s.ball.x ∧ t.ball.y = s.ball.y ∧
      t.blocks.length = s.blocks.length ∧ t.logicCount = s.logicCount)
    _ ?_ (List.range k) s ⟨rfl, rfl, rfl, rfl, rfl⟩
  intro t i ht
  obtain ⟨h1, h2, h3, h4, h5⟩ := ht
  have hp := on_paddle_collision_frame t p
  have hb := on_block_collision_frame (i + 1 == k) (on_paddle_collision t p) p
  exact ⟨hb.1.trans hp.1 |>.trans h1,
    hb.2.2.1.trans hp.2.2.2.2.2.1 |>.trans h2,
    hb.2.2.2.1.trans hp.2.2.2.2.2.2 |>.trans h3,
    hb.2.2.2.2.2.trans (congrArg List.length hp.2.1) |>.trans h4,
    hb.2.1.trans hp.2.2.2.2.1 |>.trans h5⟩

/-- `ball.check` never moves any body either. -/
theorem ballCheck_frame (k : ℕ) (s : GameState) :
    (ballCheck k s).paddle = s.paddle ∧
    (ballCheck k s).ball.x = s.ball.x ∧
    (ballCheck k s).ball.y = s.ball.y ∧
    (ballCheck k s).blocks.length = s.blocks.length ∧
    (ballCheck k s).logicCount = s.logicCount := by
  unfold ballCheck
  refine foldl_pres
    (fun t => t.paddle = s.paddle ∧ t.ball.x = s.ball.x ∧ t.ball.y = s.ball.y ∧
      t.blocks.length = s.blocks.length ∧ t.logicCount = s.logicCount)
    _ ?_ (partnerList s) s ⟨rfl, rfl, rfl, rfl, rfl⟩
  intro t p ht
  obtain ⟨h1, h2, h3, h4, h5⟩ := ht
  unfold ballStep
  split
  · have hc := ballCallbacksFor_frame k t p
    exact ⟨hc.1.trans h1, hc.2.1.trans h2, hc.2.2.1.trans h3,
      hc.2.2.2.1.trans h4, hc.2.2.2.2.trans h5⟩
  · exact ⟨h1, h2, h3, h4, h5⟩

/-- `dead_zone.check` changes nothing but the `game_over` flag. -/
theorem deadZoneCheck_frame (k : ℕ) (s : GameState) :
    (deadZoneCheck k s).ball = s.ball ∧
    (deadZoneCheck k s).paddle = s.paddle ∧
    (deadZoneCheck k s).blocks = s.blocks ∧
    (deadZoneCheck k s).score = s.score ∧
    (deadZoneCheck k s).logicCount = s.logicCount := by
  unfold deadZoneCheck
  refine foldl_pres
    (fun t => t.ball = s.ball ∧ t.paddle = s.paddle ∧ t.blocks = s.blocks ∧
      t.score = s.score ∧ t.logicCount = s.logicCount)
    _ ?_ (partnerList s) s ⟨rfl, rfl, rfl, rfl, rfl⟩
  intro t p ht
  obtain ⟨h1, h2, h3, h4, h5⟩ := ht
  unfold deadZoneStep
  split
  · unfold deadZoneCallbacksFor
    refine foldl_pres
      (fun u => u.ball = s.ball ∧ u.paddle = s.paddle ∧ u.blocks = s.blocks ∧
        u.score = s.score ∧ u.logicCount = s.logicCount)
      _ ?_ (List.range k) t ⟨h1, h2, h3, h4, h5⟩
    intro u _ hu
    obtain ⟨g1, g2, g3, g4, g5⟩ := hu
    have hd := on_dead_zone_collision_frame u p
    exact ⟨hd.1.trans g1, hd.2.1.trans g2, hd.2.2.1.trans g3,
      hd.2.2.2.1.trans g4, hd.2.2.2.2.trans g5⟩
  · exact ⟨h1, h2, h3, h4, h5⟩

/-! ## Claim C6: the AABB overlap predicate -/

/-- C6: `check_aabb_collision` returns true iff the four strict inequalities
`a.x < b.x + b.w`, `a.x + a.w > b.x`, `a.y < b.y + b.h`, `a.y + a.h > b.y`
all hold; it is symmetric in its two arguments; and two rectangles touching
only along an edge (in any of the four ways) are not considered
colliding. -/
theorem C6_aabb_predicate (a b : Rect) :
    (check_aabb_collision a b = true ↔
      (a.x < b.x + b.width ∧ a.x + a.width > b.x ∧
       a.y < b.y + b.height ∧ a.y + a.height > b.y)) ∧
    check_aabb_collision a b = check_aabb_collision b a ∧
    (a.x + a.width = b.x → check_aabb_collision a b = false) ∧
    (b.x + b.width = a.x → check_aabb_collision a b = false) ∧
    (a.y + a.height = b.y → check_aabb_collision a b = false) ∧
    (b.y + b.height = a.y → check_aabb_collision a b = false) := by
  refine ⟨?_, ?_, ?_, ?_, ?_, ?_⟩
  · simp [check_aabb_collision, and_assoc]
  · rw [Bool.eq_iff_iff]
    simp only [check_aabb_collision, Bool.and_eq_true, decide_eq_true_eq]
    constructor <;> intro h <;> tauto
  · intro h
    simp [check_aabb_collision, ← h]
  · intro h
    simp [check_aabb_collision, ← h]
  · intro h
    simp [check_aabb_collision, ← h]
  · intro h
    simp [check_aabb_collision, ← h]

/-- Witness for C6 at concrete rectangles: `(0,0,10,10)` and `(10,0,5,5)`
touch along a vertical edge and do not collide. -/
theorem C6_witness :
    check_aabb_collision ⟨0, 0, 10, 10⟩ ⟨10, 0, 5, 5⟩ = false :=
  (C6_aabb_predicate ⟨0, 0, 10, 10⟩ ⟨10, 0, 5, 5⟩).2.2.1 (by norm_num)

/-! ## Claim C7: wall bounce -/

/-- C7 (amended): within the ball's own motion update, the position advances
by the velocity; `dx` is negated exactly once when the moved position
crosses a vertical screen edge (`x < 4` or `x > 600 - 4`, the edges of the
drawn circle of radius 4 around `(x, y)`) and is untouched otherwise; `dy`
is negated exactly once when the moved position crosses the top edge
(`y < 4`) and is untouched otherwise — in particular the bottom edge never
causes a wall bounce.  (The claim's tick-level form fails when the paddle
bounce rewrites `dx` in the same tick; see the counterexample.) -/
theorem C7_wall_bounce (b : Ball) :
    b.update.x = b.x + b.dx ∧
    b.update.y = b.y + b.dy ∧
    ((b.x + b.dx < 4 ∨ b.x + b.dx > 600 - 4) → b.update.dx = -b.dx) ∧
    (¬(b.x + b.dx < 4 ∨ b.x + b.dx > 600 - 4) → b.update.dx = b.dx) ∧
    (b.y + b.dy < 4 → b.update.dy = -b.dy) ∧
    (¬b.y + b.dy < 4 → b.update.dy = b.dy) := by
  unfold Ball.update
  refine ⟨rfl, rfl, ?_, ?_, ?_, ?_⟩ <;> intro h <;> simp [h]

/-- Witness for C7 at concrete balls: from `(2, 2)` with velocity `(-4, -4)`
both edges are crossed and both components are negated; from `(300, 300)`
with velocity `(4, 4)` neither is. -/
theorem C7_witness :
    (Ball.mk 2 2 (-4) (-4)).update.dx = 4 ∧
    (Ball.mk 2 2 (-4) (-4)).update.dy = 4 ∧
    (Ball.mk 300 300 4 4).update.dx = 4 ∧
    (Ball.mk 300 300 4 4).update.dy = 4 := by
  refine ⟨?_, ?_, ?_, ?_⟩
  · have := (C7_wall_bounce (Ball.mk 2 2 (-4) (-4))).2.2.1 (by norm_num)
    simpa using this
  · have := (C7_wall_bounce (Ball.mk 2 2 (-4) (-4))).2.2.2.2.1 (by norm_num)
    simpa using this
  · have := (C7_wall_bounce (Ball.mk 300 300 4 4)).2.2.2.1 (by norm_num)
    simpa using this
  · have := (C7_wall_bounce (Ball.mk 300 300 4 4)).2.2.2.2.2 (by norm_num)
    simpa using this

/-! ## Claim C9: GameOver freezes the state -/

/-- C9: while `game_over` is set and the restart key is not pressed, a tick
leaves the whole game state (ball, paddle, blocks, score) unchanged — the
driver returns before any physics or collision processing. -/
theorem C9_gameover_freeze (s : GameState) (i : Keys)
    (hgo : s.gameOver = true) (hr : i.keyR = false) :
    BreakOut.update s i = s := by
  unfold BreakOut.update
  rw [hgo, hr]
  simp

/-- Witness for C9: a concrete game-over state under a no-key tick. -/
theorem C9_witness :
    BreakOut.update { initialState with gameOver := true } ⟨false, false, false⟩ =
      { initialState with gameOver := true } :=
  C9_gameover_freeze _ _ rfl rfl

set_option maxRecDepth 40000 in
/-- C7 (counterexample to the tick-level claim): with the paddle parked at
the left wall and the ball overlapping it at `(2, 345)` with `dx = 4 > 0`,
the tick's paddle bounce rewrites `dx` to `-14/3` and the wall bounce then
negates it, so the ball crosses the left edge (its post-move `x = -8/3 < 4`)
yet its horizontal velocity ends the tick at `14/3 > 0`: the sign did not
change exactly once (it did not change at all). -/
theorem C7_counterexample :
    0 < ballAtLeftEdgeOnPaddle.ball.dx ∧
    (BreakOut.update ballAtLeftEdgeOnPaddle noKeys).ball.x < 4 ∧
    0 < (BreakOut.update ballAtLeftEdgeOnPaddle noKeys).ball.dx := by
  with_unfolding_all decide

/-! ## Claim C8: the paddle position invariant -/

/-- C8: every paddle update clamps `x` into `[0, 600 - 60]` whatever the
previous position and input were; `GameLogic.reset` does not move `x` at
all; and consequently after any sequence of ticks from the initial state
(any keys, any number of restarts) the paddle's `x` lies in
`[0, 600 - 60]`. -/
theorem C8_paddle_clamped :
    (∀ (p : Paddle) (d : ℚ), 0 ≤ (p.update d).x ∧ (p.update d).x ≤ 600 - 60) ∧
    (∀ s : GameState, (GameLogic.reset s).paddle.x = s.paddle.x) ∧
    (∀ inputs : List Keys,
      0 ≤ (runGame inputs).paddle.x ∧ (runGame inputs).paddle.x ≤ 600 - 60) := by
  have hupd : ∀ (p : Paddle) (d : ℚ), 0 ≤ (p.update d).x ∧ (p.update d).x ≤ 600 - 60 := by
    intro p d
    unfold Paddle.update
    constructor
    · exact le_max_left 0 _
    · exact max_le (by norm_num) (min_le_right _ _)
  refine ⟨hupd, fun s => rfl, ?_⟩
  intro inputs
  unfold runGame
  refine foldl_pres (fun t => 0 ≤ t.paddle.x ∧ t.paddle.x ≤ 600 - 60) _ ?_ inputs
    initialState (by norm_num [initialState])
  intro t i ht
  unfold BreakOut.update
  split
  · split
    · exact ht
    · exact ht
  · exact hupd _ _

/-! ## Claim C10: the vertical speed invariant -/

/-- Each ball callback either keeps `dy` or negates it. -/
theorem on_paddle_collision_dy (s : GameState) (p : Partner) :
    (on_paddle_collision s p).ball.dy = s.ball.dy ∨
    (on_paddle_collision s p).ball.dy = -s.ball.dy := by
  cases p <;> simp [on_paddle_collision]

/-- `on_block_collision` either keeps `dy` or negates it. -/
theorem on_block_collision_dy (c : Bool) (s : GameState) (p : Partner) :
    (on_block_collision c s p).ball.dy = s.ball.dy ∨
    (on_block_collision c s p).ball.dy = -s.ball.dy := by
  cases p with
  | block i =>
    rcases hbl : s.blocks[i]? with _ | bl
    · simp [on_block_collision, hbl]
    · by_cases hact : bl.active <;> simp [on_block_collision, hbl, hact]
  | paddle => simp [on_block_collision]
  | ball => simp [on_block_collision]
  | deadZone => simp [on_block_collision]

/-- Keeping-or-negating steps preserve membership of `{4, -4}`. -/
theorem pm_step {a b : ℚ} (h : b = a ∨ b = -a) (ha : a = 4 ∨ a = -4) :
    b = 4 ∨ b = -4 := by
  rcases h with h | h <;> rcases ha with ha | ha <;> simp [h, ha]

/-- One tick preserves `dy ∈ {4, -4}`: the collision pass only ever negates
`dy` (paddle or block bounce), the motion update only ever negates it (top
wall), and a restart resets it to `-4`. -/
theorem tick_dy_pm (s : GameState) (i : Keys)
    (hs : s.ball.dy = 4 ∨ s.ball.dy = -4) :
    (BreakOut.update s i).ball.dy = 4 ∨ (BreakOut.update s i).ball.dy = -4 := by
  unfold BreakOut.update
  split
  · split
    · right; rfl
    · exact hs
  · have hball : ∀ t : GameState, (t.ball.dy = 4 ∨ t.ball.dy = -4) →
        ((ballCheck s.logicCount t).ball.dy = 4 ∨ (ballCheck s.logicCount t).ball.dy = -4) := by
      intro t ht
      unfold ballCheck
      refine foldl_pres (fun u => u.ball.dy = 4 ∨ u.ball.dy = -4) _ ?_ (partnerList t) t ht
      intro u p hu
      unfold ballStep
      split
      · unfold ballCallbacksFor
        refine foldl_pres (fun v => v.ball.dy = 4 ∨ v.ball.dy = -4) _ ?_ (List.range s.logicCount) u hu
        intro v j hv
        exact pm_step (on_block_collision_dy _ _ p)
          (pm_step (on_paddle_collision_dy v p) hv)
      · exact hu
    have hdz := (deadZoneCheck_frame s.logicCount (ballCheck s.logicCount s)).1
    have h1 : (collisionPhase s.logicCount s).ball.dy = 4 ∨
        (collisionPhase s.logicCount s).ball.dy = -4 := by
      unfold collisionPhase
      rw [hdz]
      exact hball s hs
    unfold motionPhase Ball.update
    dsimp only
    split
    · rcases h1 with h | h
      · right; simp [h]
      · left; simp [h]
    · exact h1

/-- C10: in every reachable state — the initial state, and after any
sequence of ticks with any key inputs, including any number of
GameOver → Playing restarts — the ball's vertical speed `|dy|` is exactly
4: every mutation of `dy` in the source either negates it
(`Ball.update`, `on_paddle_collision`, `on_block_collision`) or resets it
to `-4` (`GameLogic.reset`). -/
theorem C10_dy_abs_four (inputs : List Keys) :
    |(runGame inputs).ball.dy| = 4 := by
  have h : (runGame inputs).ball.dy = 4 ∨ (runGame inputs).ball.dy = -4 := by
    unfold runGame
    refine foldl_pres (fun t => t.ball.dy = 4 ∨ t.ball.dy = -4) _ ?_ inputs
      initialState (by right; rfl)
    intro t i ht
    exact tick_dy_pm t i ht
  rcases h with h | h <;> rw [h] <;> norm_num

/-! ## Claim C4: self-collision -/

set_option maxRecDepth 40000 in
/-- C4 (counterexample): `Collision.check` iterates over the full candidate
list without skipping the checking entity itself, so already in the initial
state the resolver's overlap test fires for the pair (ball, ball) and the
ball's registered callbacks are invoked with the ball itself as partner:
self-tests are not excluded by the resolver. -/
theorem C4_counterexample :
    Partner.ball ∈ firedPartners initialState (ballRect initialState.ball) := by
  with_unfolding_all decide

/-- C4 (amended): the resolver does report self-collisions — in every state
the ball's own entry of the candidate list passes the overlap test, so its
callback stack is invoked with the ball itself — but every registered
reaction starts with an `isinstance` check on its partner's type, so a
self-partner invocation leaves the state completely unchanged (the ball is
neither a `Paddle` nor a `Block`; the dead zone is not a `Ball`). -/
theorem C4_self_collision_harmless (k : ℕ) (s : GameState) :
    Partner.ball ∈ firedPartners s (ballRect s.ball) ∧
    ballCallbacksFor k s .ball = s ∧
    deadZoneCallbacksFor k s .deadZone = s := by
  refine ⟨?_, ?_, ?_⟩
  · have hself : check_aabb_collision (ballRect s.ball) (partnerRect s .ball) = true := by
      simp only [partnerRect, check_aabb_collision, ballRect, Bool.and_eq_true,
        decide_eq_true_eq]
      norm_num
    unfold firedPartners
    rw [List.mem_filter]
    exact ⟨by simp [partnerList], hself⟩
  · unfold ballCallbacksFor
    exact foldl_pres (fun t => t = s) _ (fun a b ha => ha) (List.range k) s rfl
  · unfold deadZoneCallbacksFor
    exact foldl_pres (fun t => t = s) _ (fun a b ha => ha) (List.range k) s rfl

/-! ## Claim C5: the paddle-bounce horizontal velocity -/

set_option maxRecDepth 40000 in
/-- C5 (counterexample): the source applies no magnitude cap.  In the
Playing state whose ball box `[263, 271) × [345, 353)` overlaps the
paddle's corner, the tick sets `dx = ((263 - 300) / 30) * 5 = -37/6`,
whose magnitude `6.17 > 5`. -/
theorem C5_counterexample :
    check_aabb_collision (ballRect ballOnPaddleCorner.ball)
      (paddleRect ballOnPaddleCorner.paddle) = true ∧
    (BreakOut.update ballOnPaddleCorner noKeys).ball.dx = -(37 / 6) ∧
    (BreakOut.update ballOnPaddleCorner noKeys).ball.dx < -5 := by
  with_unfolding_all decide

/-- C5 (amended): on a paddle collision the new `dx` always equals
`((ball.x - (paddle.x + 30)) / 30) * 5` and `dy` is negated; the three
cited example contacts give `dx = 0, -5, 5`; the magnitude is at most 5
when the ball's x lies between the paddle's edges, and over all actually
overlapping positions it is below `19/3` (≈ 6.33) — but it can exceed 5
on corner overlaps, since the source applies no cap. -/
theorem C5_paddle_bounce_formula :
    (∀ s : GameState,
      (on_paddle_collision s .paddle).ball.dx = on_paddle_dx s.ball.x s.paddle.x ∧
      (on_paddle_collision s .paddle).ball.dy = -s.ball.dy) ∧
    on_paddle_dx 300 270 = 0 ∧
    on_paddle_dx 270 270 = -5 ∧
    on_paddle_dx 330 270 = 5 ∧
    (∀ bx px : ℚ, px ≤ bx → bx ≤ px + 60 → |on_paddle_dx bx px| ≤ 5) ∧
    (∀ bx px : ℚ, px - 8 < bx → bx < px + 60 → |on_paddle_dx bx px| < 19 / 3) := by
  refine ⟨fun s => ⟨rfl, rfl⟩, by norm_num [on_paddle_dx], by norm_num [on_paddle_dx],
    by norm_num [on_paddle_dx], ?_, ?_⟩
  · intro bx px h1 h2
    have hdx : on_paddle_dx bx px = (bx - px - 30) / 6 := by
      unfold on_paddle_dx
      ring
    rw [hdx, abs_le]
    constructor
    · rw [le_div_iff₀ (by norm_num : (0:ℚ) < 6)]
      linarith
    · rw [div_le_iff₀ (by norm_num : (0:ℚ) < 6)]
      linarith
  · intro bx px h1 h2
    have hdx : on_paddle_dx bx px = (bx - px - 30) / 6 := by
      unfold on_paddle_dx
      ring
    rw [hdx, abs_lt]
    constructor
    · rw [lt_div_iff₀ (by norm_num : (0:ℚ) < 6)]
      linarith
    · rw [div_lt_iff₀ (by norm_num : (0:ℚ) < 6)]
      linarith

/-- Witness for C5 (amended) at concrete contacts: centre hit is within the
cap, and the corner graze at `x = 263` is within the true bound `19/3`. -/
theorem C5_witness :
    |on_paddle_dx 300 270| ≤ 5 ∧ |on_paddle_dx 263 270| < 19 / 3 :=
  ⟨C5_paddle_bounce_formula.2.2.2.2.1 300 270 (by norm_num) (by norm_num),
   C5_paddle_bounce_formula.2.2.2.2.2 263 270 (by norm_num) (by norm_num)⟩

/-! ## Claim C3: order of collision resolution and motion -/

set_option maxRecDepth 40000 in
/-- C3 (counterexample): the code runs the collision pass before the motion
updates, not after.  With the ball at `(300, 340)` moving down at
`dy = 4` just above the paddle, the code's tick finds no overlap (the ball
has not moved yet) and leaves `dy = 4`, while the claimed
advance-then-resolve composition moves the ball into the paddle and
negates `dy` to `-4`: the two step functions differ on this state. -/
theorem C3_counterexample :
    BreakOut.update ballAbovePaddle noKeys ≠ specOrderTick ballAbovePaddle noKeys ∧
    (BreakOut.update ballAbovePaddle noKeys).ball.dy = 4 ∧
    (specOrderTick ballAbovePaddle noKeys).ball.dy = -4 := by
  with_unfolding_all decide

/-- C3 (amended): within each Playing tick the collision-resolution pass
(which also evaluates the end conditions inside its callbacks) runs
strictly BEFORE the entity motion updates, so it sees the previous tick's
positions: the per-tick step function equals resolve-collisions first,
then advance paddle and ball. -/
theorem C3_collisions_run_first (s : GameState) (i : Keys)
    (h : s.gameOver = false) :
    BreakOut.update s i = motionPhase (collisionPhase s.logicCount s) i := by
  unfold BreakOut.update
  simp [h]

/-- Witness for C3 (amended) at the initial state. -/
theorem C3_witness :
    BreakOut.update initialState noKeys =
      motionPhase (collisionPhase initialState.logicCount initialState) noKeys :=
  C3_collisions_run_first initialState noKeys rfl

/-! ## Claim C2: paddle bounce across restarts -/

set_option maxRecDepth 40000 in
/-- C2 (the claim is right, the code is wrong): a restart constructs a new
`GameLogic` over the same entities without unregistering the old one's
callbacks, so the restart transition raises the listener count to 2; in
the restarted session a tick whose ball overlaps the paddle runs
`on_paddle_collision` twice and `dy` is negated twice — the net effect is
no sign flip at all and the ball passes through the paddle — whereas the
identical state in a fresh session (one logic) flips `dy` exactly once. -/
theorem C2_restart_doubles_callbacks :
    (BreakOut.update { initialState with gameOver := true } restartKey).logicCount = 2 ∧
    check_aabb_collision (ballRect restartedPaddleHit.ball)
      (paddleRect restartedPaddleHit.paddle) = true ∧
    (BreakOut.update restartedPaddleHit noKeys).ball.dy = restartedPaddleHit.ball.dy ∧
    (BreakOut.update { restartedPaddleHit with logicCount := 1 } noKeys).ball.dy =
      -restartedPaddleHit.ball.dy := by
  with_unfolding_all decide

/-! ## Claim C1: block destruction has no early stop -/

set_option maxRecDepth 40000 in
/-- C1 (counterexample): one tick of the Playing state whose ball overlaps
the first two blocks of the top row destroys BOTH blocks (50 active → 48),
adds 200 to the score, and negates `dy` twice so it ends the tick
unchanged — `Collision.check` has no `break`, so it does not stop at the
first overlapping block. -/
theorem C1_counterexample :
    ballOnTwoBlocks.score = 0 ∧
    ballOnTwoBlocks.blocks.countP (fun b => b.active) = 50 ∧
    ballOnTwoBlocks.ball.dy = -4 ∧
    (BreakOut.update ballOnTwoBlocks noKeys).score = 200 ∧
    (BreakOut.update ballOnTwoBlocks noKeys).blocks.countP (fun b => b.active) = 48 ∧
    (BreakOut.update ballOnTwoBlocks noKeys).ball.dy = -4 := by
  with_unfolding_all decide

/-- In a fresh session (a single logic instance) the ball's callback stack
on a block partner reduces to one `on_block_collision` with the current
logic's `game_over` flag. -/
theorem ballCallbacksFor_one_block (t : GameState) (i : ℕ) :
    ballCallbacksFor 1 t (.block i) = on_block_collision true t (.block i) := rfl

/-- One iteration of the ball's `check` loop on a block partner destroys
the block exactly when it is active and overlapping. -/
theorem ballStep_block (t : GameState) (i : ℕ) :
    ballStep 1 t (.block i) = if blockHit t i then destroyAt t i else t := by
  unfold ballStep
  rw [ballCallbacksFor_one_block]
  rcases hbl : t.blocks[i]? with _ | bl
  · simp [partnerRect, blockHit, on_block_collision, hbl]
  · by_cases hact : bl.active
    · simp [partnerRect, blockHit, on_block_collision, destroyAt, hbl, hact,
        Bool.and_comm]
    · simp [partnerRect, blockHit, on_block_collision, destroyAt, hbl, hact]

/-- Folding the ball's check loop over any list of distinct in-range block
indices (judging hits against the starting state): every hit block is
deactivated, each hit adds exactly 100 to the score and negates `dy` once,
the ball's position is untouched, and non-hit blocks are untouched. -/
theorem blockFoldSpec (idxs : List ℕ) :
    ∀ s : GameState, idxs.Nodup → (∀ i ∈ idxs, i < s.blocks.length) →
    (idxs.foldl (fun t i => ballStep 1 t (.block i)) s).score =
        s.score + 100 * idxs.countP (fun i => blockHit s i) ∧
    (idxs.foldl (fun t i => ballStep 1 t (.block i)) s).ball.dy =
        (-1 : ℚ) ^ idxs.countP (fun i => blockHit s i) * s.ball.dy ∧
    (idxs.foldl (fun t i => ballStep 1 t (.block i)) s).ball.x = s.ball.x ∧
    (idxs.foldl (fun t i => ballStep 1 t (.block i)) s).ball.y = s.ball.y ∧
    (∀ j : ℕ, (idxs.foldl (fun t i => ballStep 1 t (.block i)) s).blocks[j]? =
        if blockHit s j ∧ j ∈ idxs then
          (s.blocks[j]?).map (fun b => { b with active := false })
        else s.blocks[j]?) := by
  induction idxs with
  | nil =>
    intro s _ _
    simp
  | cons i rest ih =>
    intro s hnd hbd
    have hiL : i < s.blocks.length := hbd i (List.mem_cons_self i rest)
    have hinotin : i ∉ rest := (List.nodup_cons.1 hnd).1
    have hndr : rest.Nodup := (List.nodup_cons.1 hnd).2
    rw [List.foldl_cons, ballStep_block]
    by_cases hhit : blockHit s i = true
    · rw [if_pos hhit]
      obtain ⟨bl, hbl, hact, hov⟩ :
          ∃ bl, s.blocks[i]? = some bl ∧ bl.active = true ∧
            check_aabb_collision (ballRect s.ball) (blockRect bl) = true := by
        unfold blockHit at hhit
        rcases hbl : s.blocks[i]? with _ | bl
        · rw [hbl] at hhit
          exact absurd hhit (by simp)
        · rw [hbl, Bool.and_eq_true] at hhit
          exact ⟨bl, rfl, hhit.1, hhit.2⟩
      have hs1 : destroyAt s i = { s with
          blocks := s.blocks.set i { bl with active := false },
          ball := { s.ball with dy := -s.ball.dy },
          score := s.score + 100,
          gameOver := if (s.blocks.set i { bl with active := false }).all
              (fun b => !b.active) then true else s.gameOver } := by
        unfold destroyAt
        rw [hbl]
      have hscore1 : (destroyAt s i).score = s.score + 100 := by rw [hs1]
      have hdy1 : (destroyAt s i).ball.dy = -s.ball.dy := by rw [hs1]
      have hx1 : (destroyAt s i).ball.x = s.ball.x := by rw [hs1]
      have hy1 : (destroyAt s i).ball.y = s.ball.y := by rw [hs1]
      have hblocks1 : (destroyAt s i).blocks = s.blocks.set i { bl with active := false } := by
        rw [hs1]
      have hlen1 : (destroyAt s i).blocks.length = s.blocks.length := by
        rw [hblocks1]
        exact List.length_set s.blocks i _
      have hget1 : ∀ j, j ≠ i → (destroyAt s i).blocks[j]? = s.blocks[j]? := by
        intro j hj
        rw [hblocks1]
        exact List.getElem?_set_ne (Ne.symm hj)
      have hgeti : (destroyAt s i).blocks[i]? = some { bl with active := false } := by
        rw [hblocks1]
        exact List.getElem?_set_eq_of_lt _ hiL
      have hrect1 : ballRect (destroyAt s i).ball = ballRect s.ball := by
        simp [ballRect, hx1, hy1]
      have hitstab : ∀ j, j ≠ i → blockHit (destroyAt s i) j = blockHit s j := by
        intro j hj
        unfold blockHit
        rw [hget1 j hj, hrect1]
      have hbd1 : ∀ i' ∈ rest, i' < (destroyAt s i).blocks.length := by
        intro i' hi'
        rw [hlen1]
        exact hbd i' (List.mem_cons_of_mem i hi')
      obtain ⟨ihs, ihdy, ihx, ihy, ihblocks⟩ := ih (destroyAt s i) hndr hbd1
      have hcnt : rest.countP (fun j => blockHit (destroyAt s i) j) =
          rest.countP (fun j => blockHit s j) :=
        List.countP_congr (fun j hj => by
          rw [hitstab j (fun he => hinotin (he ▸ hj))])
      have hcntc : (i :: rest).countP (fun j => blockHit s j) =
          rest.countP (fun j => blockHit s j) + 1 := by
        rw [List.countP_cons]
        simp [hhit]
      refine ⟨?_, ?_, ?_, ?_, ?_⟩
      · rw [ihs, hcnt, hscore1, hcntc]
        omega
      · rw [ihdy, hcnt, hdy1, hcntc, pow_succ]
        ring
      · rw [ihx, hx1]
      · rw [ihy, hy1]
      · intro j
        rw [ihblocks j]
        by_cases hji : j = i
        · subst hji
          have hforget : blockHit (destroyAt s j) j = false := by
            unfold blockHit
            rw [hgeti]
            simp
          rw [if_neg (by simp [hforget]), hgeti,
            if_pos ⟨hhit, List.mem_cons_self j rest⟩, hbl]
          rfl
        · rw [hitstab j hji, hget1 j hji]
          by_cases hc : blockHit s j = true ∧ j ∈ rest
          · rw [if_pos hc, if_pos ⟨hc.1, List.mem_cons_of_mem i hc.2⟩]
          · rw [if_neg hc, if_neg (fun hcc => hc
              ⟨hcc.1, (List.mem_cons.1 hcc.2).resolve_left hji⟩)]
    · simp only [Bool.not_eq_true] at hhit
      rw [if_neg (by simp [hhit])]
      obtain ⟨ihs, ihdy, ihx, ihy, ihblocks⟩ := ih s hndr
        (fun i' hi' => hbd i' (List.mem_cons_of_mem i hi'))
      have hcntc : (i :: rest).countP (fun j => blockHit s j) =
          rest.countP (fun j => blockHit s j) := by
        rw [List.countP_cons]
        simp [hhit]
      refine ⟨?_, ?_, ?_, ?_, ?_⟩
      · rw [ihs, hcntc]
      · rw [ihdy, hcntc]
      · exact ihx
      · exact ihy
      · intro j
        rw [ihblocks j]
        by_cases hc : blockHit s j = true ∧ j ∈ rest
        · rw [if_pos hc, if_pos ⟨hc.1, List.mem_cons_of_mem i hc.2⟩]
        · have hnc : ¬(blockHit s j = true ∧ j ∈ i :: rest) := by
            rintro ⟨h1, h2⟩
            rcases List.mem_cons.1 h2 with he | hm
            · rw [he, hhit] at h1
              exact Bool.false_ne_true h1
            · exact hc ⟨h1, hm⟩
          rw [if_neg hc, if_neg hnc]

/-- A hit index is in range. -/
theorem blockHit_lt (s : GameState) (j : ℕ) (h : blockHit s j = true) :
    j < s.blocks.length := by
  unfold blockHit at h
  rcases hbl : s.blocks[j]? with _ | bl
  · rw [hbl] at h
    exact absurd h (by simp)
  · exact (List.getElem?_eq_some.1 hbl).1

/-- When the ball does not overlap the paddle, `ball.check` in a fresh
session reduces to the fold over the block indices: the self test fires
but all callbacks ignore the ball, and the dead-zone partner is ignored
by the ball's callbacks as well. -/
theorem ballCheck_one_reduces (s : GameState)
    (hpad : check_aabb_collision (ballRect s.ball) (paddleRect s.paddle) = false) :
    ballCheck 1 s =
      (List.range s.blocks.length).foldl (fun t i => ballStep 1 t (.block i)) s := by
  unfold ballCheck partnerList
  rw [List.foldl_cons, List.foldl_cons, List.foldl_cons]
  have h1 : ballStep 1 s .paddle = s := by
    unfold ballStep
    rw [show partnerRect s .paddle = paddleRect s.paddle from rfl, hpad]
    simp
  have h2 : ballStep 1 s .ball = s := by
    unfold ballStep
    split
    · rfl
    · rfl
  have h3 : ballStep 1 s .deadZone = s := by
    unfold ballStep
    split
    · rfl
    · rfl
  rw [h1, h2, h3, List.foldl_map]

/-- C1 (amended): in a fresh session (one logic instance), in every Playing
tick whose ball does not overlap the paddle, EVERY active block whose box
overlaps the ball's box is destroyed that tick — there is no early stop.
With `m = hitCount s` such blocks, the tick adds exactly `100 * m` to the
score, the collision pass negates `dy` once per destroyed block (net
factor `(-1)^m`), and a block survives the tick active exactly when it was
active and not overlapping. -/
theorem C1_no_early_stop (s : GameState) (i : Keys)
    (hgo : s.gameOver = false) (hk : s.logicCount = 1)
    (hpad : check_aabb_collision (ballRect s.ball) (paddleRect s.paddle) = false) :
    (BreakOut.update s i).score = s.score + 100 * hitCount s ∧
    (collisionPhase 1 s).ball.dy = (-1 : ℚ) ^ hitCount s * s.ball.dy ∧
    (∀ j : ℕ, (BreakOut.update s i).blocks[j]? =
        if blockHit s j then (s.blocks[j]?).map (fun b => { b with active := false })
        else s.blocks[j]?) := by
  have hupd : BreakOut.update s i = motionPhase (collisionPhase 1 s) i := by
    unfold BreakOut.update
    rw [hk]
    simp [hgo]
  have hdzf := deadZoneCheck_frame 1 (ballCheck 1 s)
  have hred := ballCheck_one_reduces s hpad
  obtain ⟨hsc, hdy, hx, hy, hbl⟩ := blockFoldSpec (List.range s.blocks.length) s
    (List.nodup_range _) (fun j hj => List.mem_range.1 hj)
  have hcp_score : (collisionPhase 1 s).score = s.score + 100 * hitCount s := by
    unfold collisionPhase
    rw [hdzf.2.2.2.1, hred, hsc]
    rfl
  have hcp_dy : (collisionPhase 1 s).ball.dy = (-1 : ℚ) ^ hitCount s * s.ball.dy := by
    unfold collisionPhase
    rw [hdzf.1, hred, hdy]
    rfl
  have hcp_blocks : ∀ j : ℕ, (collisionPhase 1 s).blocks[j]? =
      if blockHit s j then (s.blocks[j]?).map (fun b => { b with active := false })
      else s.blocks[j]? := by
    intro j
    unfold collisionPhase
    rw [hdzf.2.2.1, hred, hbl j]
    by_cases hb : blockHit s j = true
    · rw [if_pos ⟨hb, List.mem_range.2 (blockHit_lt s j hb)⟩, if_pos hb]
    · rw [if_neg (fun hc => hb hc.1), if_neg hb]
  refine ⟨?_, hcp_dy, ?_⟩
  · rw [hupd]
    exact hcp_score
  · intro j
    rw [hupd]
    exact hcp_blocks j

set_option maxRecDepth 40000 in
/-- Witness for C1 (amended): the two-block overlap state has `m = 2`, and
the tick indeed adds 200. -/
theorem C1_witness :
    (BreakOut.update ballOnTwoBlocks noKeys).score =
      ballOnTwoBlocks.score + 100 * hitCount ballOnTwoBlocks ∧
    hitCount ballOnTwoBlocks = 2 :=
  ⟨(C1_no_early_stop ballOnTwoBlocks noKeys rfl rfl (by with_unfolding_all decide)).1,
   by with_unfolding_all decide⟩
